import Mathlib

/-!
Verification of the SMPTE color-bars test-pattern generator.

Shallow embedding of `src/lib/components/ColorBars.svelte` (layout and
animation-state update) and `src/lib/timeSync.ts` (clock offset handling).
Real-number arithmetic of the source is embedded over `ℚ`; wall-clock
instants are epoch milliseconds over `ℤ`.  JavaScript's `%` on numbers is
`Int.tmod`, `Math.floor(x / k)` on integers is `Int.fdiv`, and
`Math.round` is Mathlib's `round` (both are `⌊x + 1/2⌋`).
-/

namespace ColorBars

/-- A drawable rectangle: x, y, width, height, in canvas units. -/
structure Rect where
  x : ℚ
  y : ℚ
  w : ℚ
  h : ℚ
deriving DecidableEq, Repr

/-- Main color-bar row, top 67% of the canvas: bar `i` of the 7 bars is the
rect `x = (width/7)*i`, `y = 0`, `width = width/7 + 1`, `height = height*0.67`
(`ColorBars.svelte` lines 306–314). -/
def mainBarRect (width height : ℚ) (i : ℕ) : Rect :=
  { x := (width / 7) * i, y := 0, w := width / 7 + 1, h := height * (67/100) }

/-- Castellations row, 8% of the height below the main bars: bar `i` of 7 is
`x = (width/7)*i`, `y = height*0.67`, `width = width/7 + 1`,
`height = height*0.08` (`ColorBars.svelte` lines 317–325). -/
def castellationRect (width height : ℚ) (i : ℕ) : Rect :=
  { x := (width / 7) * i, y := height * (67/100), w := width / 7 + 1,
    h := height * (8/100) }

/-- Relative unit widths of the 8 PLUGE-row segments
(`ColorBars.svelte` lines 123–132, the `width` fields of `pluGeRow`). -/
def pluGeRowWidths : List ℚ := [1, 1, 1, 1, 1/2, 1, 1/2, 2]

/-- Sum of the PLUGE unit widths (`pluGeRow.reduce((sum, item) => sum + item.width, 0)`,
line 137). -/
def totalWidthUnits : ℚ := pluGeRowWidths.foldl (fun sum item => sum + item) 0

/-- Pixel width of one PLUGE unit: `width / totalWidthUnits` (line 138). -/
def unitWidth (width : ℚ) : ℚ := width / totalWidthUnits

/-- X offset of PLUGE segment `index`: sum of the preceding segments'
`item.width * (width / totalWidthUnits)` (lines 140–142). -/
def getPlugeX (width : ℚ) (index : ℕ) : ℚ :=
  (pluGeRowWidths.take index).foldl
    (fun sum item => sum + item * (width / totalWidthUnits)) 0

/-- PLUGE-row rect for segment `i`: `x = getPlugeX i`, `y = height*0.75`,
`width = segment.width * unitWidth + 1`, `height = height*0.25`
(lines 135–136 and 328–336). -/
def plugeRect (width height : ℚ) (i : ℕ) : Rect :=
  { x := getPlugeX width i, y := height * (3/4),
    w := pluGeRowWidths.getD i 0 * unitWidth width + 1, h := height * (1/4) }

/-- Mutable ball state: `ballX` position and `ballDirection ∈ {−1, +1}`
(`ColorBars.svelte` lines 155–156). -/
structure BallState where
  ballX : ℚ
  ballDirection : ℤ
deriving DecidableEq, Repr

/-- Ball radius: `Math.min(width, height) * 0.025` (line 157). -/
def ballRadius (width height : ℚ) : ℚ := min width height * (25/1000)

/-- Ball speed in pixels per second: `width / 2` (line 159). -/
def ballSpeed (width : ℚ) : ℚ := width / 2

/-- One ball update of `updateAnimation` (lines 220–229):
`ballX += ballSpeed * ballDirection * (deltaMs / 1000)`, then clamp to
`width - ballRadius` setting direction −1, else clamp to `ballRadius`
setting direction +1. -/
def ballTick (width height deltaMs : ℚ) (s : BallState) : BallState :=
  let x := s.ballX + ballSpeed width * (s.ballDirection : ℚ) * (deltaMs / 1000)
  if x ≥ width - ballRadius width height then
    { ballX := width - ballRadius width height, ballDirection := -1 }
  else if x ≤ ballRadius width height then
    { ballX := ballRadius width height, ballDirection := 1 }
  else
    { ballX := x, ballDirection := s.ballDirection }

/-- A finite sequence of ball updates, one per frame delta. -/
def ballRun (width height : ℚ) (deltas : List ℚ) (s : BallState) : BallState :=
  deltas.foldl (fun st d => ballTick width height d st) s

/-- Spinner cycle duration in milliseconds (line 166). -/
def spinnerCycleMs : ℤ := 5000

/-- Spinner phase: `((t % spinnerCycleMs) + spinnerCycleMs) % spinnerCycleMs`
where `t = currentTime.getTime()` (line 232); JavaScript `%` is `Int.tmod`. -/
def spinnerPhaseMsOf (t : ℤ) : ℤ :=
  Int.tmod (Int.tmod t spinnerCycleMs + spinnerCycleMs) spinnerCycleMs

/-- Spinner angle: `(spinnerPhaseMs / spinnerCycleMs) * 360` (line 233). -/
def spinnerAngleOf (t : ℤ) : ℚ :=
  ((spinnerPhaseMsOf t : ℤ) : ℚ) / ((spinnerCycleMs : ℤ) : ℚ) * 360

/-- JavaScript `String.prototype.padStart(k, '0')`. -/
def padStart (k : ℕ) (s : String) : String :=
  String.mk (List.replicate (k - s.length) '0') ++ s

/-- 30fps frame index within the second: `Math.floor((ms / 1000) * 30)`
(lines 237 and 274). -/
def frameIndex (ms : ℕ) : ℕ := ms * 30 / 1000

/-- Gregorian civil date (year, month, day) from days since 1970-01-01,
used to model `Date.prototype.toISOString`'s calendar fields. -/
def civilFromDays (z0 : ℤ) : ℤ × ℕ × ℕ :=
  let z := z0 + 719468
  let era := Int.fdiv z 146097
  let doe := (z - era * 146097).toNat
  let yoe := (doe - doe / 1460 + doe / 36524 - doe / 146096) / 365
  let y := (yoe : ℤ) + era * 400
  let doy := doe - (365 * yoe + yoe / 4 - yoe / 100)
  let mp := (5 * doy + 2) / 153
  let dd := doy - (153 * mp + 2) / 5 + 1
  let m := if mp < 10 then mp + 3 else mp - 9
  (if m ≤ 2 then y + 1 else y, m, dd)

/-- Year field of an ISO-8601 timestamp as JavaScript prints it: 4 digits in
0..9999, otherwise a sign and 6 digits. -/
def isoYearString (y : ℤ) : String :=
  if 0 ≤ y ∧ y ≤ 9999 then padStart 4 (toString y.toNat)
  else if y < 0 then "-" ++ padStart 6 (toString y.natAbs)
  else "+" ++ padStart 6 (toString y.natAbs)

/-- `Date.prototype.toISOString` for epoch milliseconds `t`:
`YYYY-MM-DDTHH:mm:ss.sssZ`. -/
def toISOString (t : ℤ) : String :=
  let msOfDay := (Int.emod t 86400000).toNat
  let ymd := civilFromDays (Int.fdiv t 86400000)
  isoYearString ymd.1 ++ "-" ++ padStart 2 (toString ymd.2.1) ++ "-" ++
    padStart 2 (toString ymd.2.2) ++ "T" ++
    padStart 2 (toString (msOfDay / 3600000)) ++ ":" ++
    padStart 2 (toString (msOfDay / 60000 % 60)) ++ ":" ++
    padStart 2 (toString (msOfDay / 1000 % 60)) ++ "." ++
    padStart 3 (toString (msOfDay % 1000)) ++ "Z"

/-- Sync QR payload: `` `${iso}|${width}x${height}|f${frame}` `` (line 241),
with `dims` the rendered `` `${width}x${height}` `` text and the frame index
taken from `currentTime.getUTCMilliseconds()`. -/
def qrLabelOf (t : ℤ) (dims : String) : String :=
  toISOString t ++ "|" ++ dims ++ "|f" ++
    padStart 2 (toString (frameIndex (Int.emod t 1000).toNat))

/-- Sync-QR state: the last emitted integer second `qrToken` and the payload
`qrLabel` (lines 182–183). -/
structure QrState where
  qrToken : ℤ
  qrLabel : String
deriving DecidableEq, Repr

/-- The sync-QR branch of `updateAnimation` (lines 236–246):
`nextToken = Math.floor(t / 1000)`; if it differs from the stored token,
store it and regenerate the payload.  The boolean reports whether the
payload was regenerated this tick. -/
def qrTick (t : ℤ) (dims : String) (st : QrState) : QrState × Bool :=
  let nextToken := Int.fdiv t 1000
  if nextToken ≠ st.qrToken then
    ({ qrToken := nextToken, qrLabel := qrLabelOf t dims }, true)
  else (st, false)

/-- Calendar fields read off a `Date` (hours, minutes, seconds, ms). -/
structure DateFields where
  hours : ℕ
  minutes : ℕ
  seconds : ℕ
  ms : ℕ
deriving DecidableEq, Repr

/-- The UTC calendar fields of epoch-milliseconds `t`, as returned by
`getUTCHours` / `getUTCMinutes` / `getUTCSeconds` / `getUTCMilliseconds`. -/
def utcFields (t : ℤ) : DateFields :=
  { hours := (Int.emod (Int.fdiv t 3600000) 24).toNat,
    minutes := (Int.emod (Int.fdiv t 60000) 60).toNat,
    seconds := (Int.emod (Int.fdiv t 1000) 60).toNat,
    ms := (Int.emod t 1000).toNat }

/-- `getTimecode(date, useLocal)` (lines 269–276): selects the date's UTC or
local calendar fields per the flag and formats `HH:MM:SS:FF` with
`FF = Math.floor((ms / 1000) * 30)`, each `padStart(2, '0')`. -/
def getTimecode (utc localFields : DateFields) (useLocal : Bool) : String :=
  let d := if useLocal then localFields else utc
  padStart 2 (toString d.hours) ++ ":" ++ padStart 2 (toString d.minutes) ++
    ":" ++ padStart 2 (toString d.seconds) ++ ":" ++
    padStart 2 (toString (frameIndex d.ms))

/-- Shimmer speed: `width / 5` pixels per second (line 280). -/
def shimmerSpeed (width : ℚ) : ℚ := width / 5

/-- Shimmer band width: `width * 0.3` (line 281). -/
def shimmerWidth (width : ℚ) : ℚ := width * (3/10)

/-- Static inputs of `updateAnimation`: canvas dimensions, the rendered
`` `${width}x${height}` `` text used in the QR payload, and overlay flags. -/
structure Config where
  width : ℚ
  height : ℚ
  dims : String
  showBall : Bool
  showSpinner : Bool
  showSyncQr : Bool
  showShimmer : Bool
deriving Repr

/-- Mutable state of `updateAnimation` (lines 145–184, 279), plus `reads`,
the number of `getSyncedTime()` calls made so far: each call site consumes
the next value of the injected clock. -/
structure AnimState where
  reads : ℕ
  currentTime : ℤ
  lastFrameTime : ℚ
  frameCount : ℕ
  fpsUpdateTime : ℚ
  fps : ℤ
  spinnerFlashFrameMs : ℚ
  ball : BallState
  spinnerPhaseMs : ℤ
  spinnerAngle : ℚ
  qr : QrState
  shimmerX : ℚ
deriving DecidableEq, Repr

/-- One animation tick (`updateAnimation`, lines 206–256).  `clock` is the
injected synchronized clock; the single `getSyncedTime()` call of the tick
reads `clock st.reads`.  `timestamp` is the monotonic frame timestamp. -/
def updateAnimation (cfg : Config) (clock : ℕ → ℤ) (timestamp : ℚ)
    (st : AnimState) : AnimState :=
  let t := clock st.reads
  let deltaMs : ℚ :=
    if 0 < st.lastFrameTime then timestamp - st.lastFrameTime else 1667/100
  let frameCount := st.frameCount + 1
  let fpsTriple : ℤ × ℕ × ℚ :=
    if 500 ≤ timestamp - st.fpsUpdateTime then
      (round ((frameCount : ℚ) * 1000 / (timestamp - st.fpsUpdateTime)), 0,
        timestamp)
    else (st.fps, frameCount, st.fpsUpdateTime)
  let ball := if cfg.showBall then ballTick cfg.width cfg.height deltaMs st.ball
    else st.ball
  let sp : ℤ × ℚ :=
    if cfg.showSpinner then (spinnerPhaseMsOf t, spinnerAngleOf t)
    else (st.spinnerPhaseMs, st.spinnerAngle)
  let qr := if cfg.showSyncQr then (qrTick t cfg.dims st.qr).1 else st.qr
  let shimmer :=
    if cfg.showShimmer then
      let sx := st.shimmerX + shimmerSpeed cfg.width * (deltaMs / 1000)
      if cfg.width < sx then -(shimmerWidth cfg.width) - cfg.height else sx
    else st.shimmerX
  { reads := st.reads + 1,
    currentTime := t,
    lastFrameTime := timestamp,
    frameCount := fpsTriple.2.1,
    fpsUpdateTime := fpsTriple.2.2,
    fps := fpsTriple.1,
    spinnerFlashFrameMs := deltaMs,
    ball := ball,
    spinnerPhaseMs := sp.1,
    spinnerAngle := sp.2,
    qr := qr,
    shimmerX := shimmer }

/-- Module state of `timeSync.ts` (lines 4–16): fields of `timeData`. -/
structure TimeData where
  serverTime : ℚ
  offset : ℚ
  lastSync : ℚ
  synced : Bool
deriving DecidableEq, Repr

/-- Observations of one successful `syncTime` network exchange: the parsed
`utc_datetime` epoch ms, the round-trip bracketing `Date.now()` readings,
the `Date.now()` read for the offset, and the wall clock stored as
`lastSync` (`timeSync.ts` lines 29–51). -/
structure SyncSuccess where
  utcDatetimeMs : ℚ
  requestStart : ℚ
  requestEnd : ℚ
  localTimestamp : ℚ
  wallClockNow : ℚ
deriving Repr

/-- `syncTime` (`timeSync.ts` lines 20–64): on success, store server time
adjusted by half the round trip, the offset, and the sync instant; on any
failure (rejected fetch, non-ok response, parse error) the catch block only
sets `synced = false` (line 58). -/
def syncTime (result : Option SyncSuccess) (td : TimeData) : TimeData :=
  match result with
  | some r =>
      let latency := (r.requestEnd - r.requestStart) / 2
      let serverTimestamp := r.utcDatetimeMs + latency
      { serverTime := serverTimestamp,
        offset := serverTimestamp - r.localTimestamp,
        lastSync := r.wallClockNow,
        synced := true }
  | none => { td with synced := false }

/-- `getSyncedTime` (`timeSync.ts` lines 66–68): `Date.now() + offset`. -/
def getSyncedTime (nowMs : ℚ) (td : TimeData) : ℚ := nowMs + td.offset

/-- Concrete sync-QR state used by witnesses. -/
def qr0 : QrState := { qrToken := 0, qrLabel := "" }

/-- Concrete configuration used by witnesses. -/
def cfg0 : Config :=
  { width := 100, height := 100, dims := "100x100", showBall := true,
    showSpinner := true, showSyncQr := true, showShimmer := true }

/-- Concrete animation state used by witnesses. -/
def st0 : AnimState :=
  { reads := 0, currentTime := 0, lastFrameTime := 0, frameCount := 0,
    fpsUpdateTime := 0, fps := 0, spinnerFlashFrameMs := 0,
    ball := { ballX := 0, ballDirection := 1 }, spinnerPhaseMs := 0,
    spinnerAngle := 0, qr := { qrToken := 0, qrLabel := "" }, shimmerX := 0 }

/-! Helper lemmas shared between the claim theorems. -/

lemma totalWidthUnits_eq : totalWidthUnits = 8 := by
  simp [totalWidthUnits, pluGeRowWidths, List.foldl]
  norm_num

lemma foldl_add_zero_mul (l : List ℚ) :
    ∀ a : ℚ, l.foldl (fun sum item => sum + item * ((0:ℚ) / totalWidthUnits)) a = a := by
  induction l with
  | nil => intro a; rfl
  | cons x xs ih =>
    intro a
    rw [List.foldl_cons]
    have hx : a + x * ((0:ℚ) / totalWidthUnits) = a := by
      rw [zero_div, mul_zero, add_zero]
    rw [hx]
    exact ih a

lemma getPlugeX_zero_width (j : ℕ) : getPlugeX 0 j = 0 := by
  unfold getPlugeX
  exact foldl_add_zero_mul _ 0

lemma getPlugeX_le_succ (w : ℚ) (hw : 0 ≤ w) (i : ℕ) :
    getPlugeX w i ≤ getPlugeX w (i + 1) := by
  unfold getPlugeX
  rw [List.take_succ, List.foldl_append]
  cases hgd : pluGeRowWidths[i]? with
  | none => simp [hgd]
  | some u =>
    have hu : 0 ≤ u := by
      have hmem : u ∈ pluGeRowWidths := List.getElem?_mem hgd
      fin_cases hmem <;> norm_num
    have ht : (0:ℚ) < totalWidthUnits := by rw [totalWidthUnits_eq]; norm_num
    have hnn : 0 ≤ u * (w / totalWidthUnits) := by positivity
    simp only [Option.toList, List.foldl_cons, List.foldl_nil]
    linarith

lemma getPlugeX_mono (w : ℚ) (hw : 0 ≤ w) :
    ∀ i j : ℕ, i ≤ j → getPlugeX w i ≤ getPlugeX w j := by
  intro i j hij
  induction hij with
  | refl => exact le_refl _
  | step h ih => exact le_trans ih (getPlugeX_le_succ w hw _)

lemma getPlugeX_seven (w : ℚ) : getPlugeX w 7 = 6 * (w / 8) := by
  unfold getPlugeX
  rw [show pluGeRowWidths.take 7 = [1, 1, 1, 1, (1:ℚ)/2, 1, 1/2] from rfl]
  simp only [List.foldl, totalWidthUnits_eq]
  ring

lemma two_ballRadius_lt (w h : ℚ) (hw : 0 < w) :
    ballRadius w h + ballRadius w h < w := by
  have h1 : min w h ≤ w := min_le_left w h
  have h2 : ballRadius w h ≤ w * (25/1000) := by
    unfold ballRadius
    nlinarith
  linarith

lemma ballTick_high (w h d : ℚ) (s : BallState)
    (hc : s.ballX + ballSpeed w * (s.ballDirection : ℚ) * (d / 1000) ≥
      w - ballRadius w h) :
    ballTick w h d s = { ballX := w - ballRadius w h, ballDirection := -1 } := by
  simp only [ballTick]
  rw [if_pos hc]

lemma ballTick_low (w h d : ℚ) (hw : 0 < w) (s : BallState)
    (hc : s.ballX + ballSpeed w * (s.ballDirection : ℚ) * (d / 1000) ≤
      ballRadius w h) :
    ballTick w h d s = { ballX := ballRadius w h, ballDirection := 1 } := by
  have hlt := two_ballRadius_lt w h hw
  simp only [ballTick]
  rw [if_neg (by push_neg; linarith), if_pos hc]

lemma ballTick_mid (w h d : ℚ) (s : BallState)
    (hc1 : ¬ s.ballX + ballSpeed w * (s.ballDirection : ℚ) * (d / 1000) ≥
      w - ballRadius w h)
    (hc2 : ¬ s.ballX + ballSpeed w * (s.ballDirection : ℚ) * (d / 1000) ≤
      ballRadius w h) :
    ballTick w h d s =
      { ballX := s.ballX + ballSpeed w * (s.ballDirection : ℚ) * (d / 1000),
        ballDirection := s.ballDirection } := by
  simp only [ballTick]
  rw [if_neg hc1, if_neg hc2]

lemma ballTick_bounds (w h d : ℚ) (hw : 0 < w) (s : BallState)
    (hdir : s.ballDirection = 1 ∨ s.ballDirection = -1) :
    (ballRadius w h ≤ (ballTick w h d s).ballX
      ∧ (ballTick w h d s).ballX ≤ w - ballRadius w h)
    ∧ ((ballTick w h d s).ballDirection = 1
      ∨ (ballTick w h d s).ballDirection = -1) := by
  have hlt := two_ballRadius_lt w h hw
  by_cases h1 : s.ballX + ballSpeed w * (s.ballDirection : ℚ) * (d / 1000) ≥
      w - ballRadius w h
  · rw [ballTick_high w h d s h1]
    exact ⟨⟨by simp; linarith, by simp⟩, by simp⟩
  · by_cases h2 : s.ballX + ballSpeed w * (s.ballDirection : ℚ) * (d / 1000) ≤
        ballRadius w h
    · rw [ballTick_low w h d hw s h2]
      exact ⟨⟨by simp, by simp; linarith⟩, by simp⟩
    · rw [ballTick_mid w h d s h1 h2]
      push_neg at h1 h2
      exact ⟨⟨le_of_lt h2, le_of_lt h1⟩, hdir⟩

lemma ballRun_bounds (w h : ℚ) (hw : 0 < w) :
    ∀ (deltas : List ℚ) (s : BallState),
      (ballRadius w h ≤ s.ballX ∧ s.ballX ≤ w - ballRadius w h) →
      (s.ballDirection = 1 ∨ s.ballDirection = -1) →
      ((ballRadius w h ≤ (ballRun w h deltas s).ballX
        ∧ (ballRun w h deltas s).ballX ≤ w - ballRadius w h)
       ∧ ((ballRun w h deltas s).ballDirection = 1
        ∨ (ballRun w h deltas s).ballDirection = -1)) := by
  intro deltas
  induction deltas with
  | nil => intro s hx hd; exact ⟨hx, hd⟩
  | cons d rest ih =>
    intro s hx hd
    have hb := ballTick_bounds w h d hw s hd
    have hrun : ballRun w h (d :: rest) s = ballRun w h rest (ballTick w h d s) :=
      rfl
    rw [hrun]
    exact ih _ hb.1 hb.2

lemma tmod_shift_emod (t : ℤ) :
    Int.tmod (Int.tmod t 5000 + 5000) 5000 = t % 5000 := by
  rcases t with m | n
  · have h0 : (0:ℤ) ≤ Int.ofNat m := Int.ofNat_nonneg m
    rw [Int.tmod_eq_emod h0 (by norm_num)]
    have h1 : 0 ≤ (Int.ofNat m) % 5000 := Int.emod_nonneg _ (by norm_num)
    rw [Int.tmod_eq_emod (by omega) (by norm_num)]
    omega
  · have h1 : Int.tmod (Int.negSucc n) 5000 = -((((n+1) % 5000 : ℕ)) : ℤ) := rfl
    rw [h1]
    have hm : ((n+1) % 5000 : ℕ) < 5000 := Nat.mod_lt _ (by norm_num)
    have h2 : (0:ℤ) ≤ -((((n+1) % 5000 : ℕ)) : ℤ) + 5000 := by omega
    rw [Int.tmod_eq_emod h2 (by norm_num)]
    rw [Int.negSucc_eq n]
    omega

lemma qrTick_flag (t : ℤ) (dims : String) (st : QrState) :
    (qrTick t dims st).2 = true ↔ Int.fdiv t 1000 ≠ st.qrToken := by
  by_cases hne : Int.fdiv t 1000 = st.qrToken
  · simp [qrTick, hne]
  · simp [qrTick, hne]

lemma qrTick_token (t : ℤ) (dims : String) (st : QrState) :
    ((qrTick t dims st).1).qrToken = Int.fdiv t 1000 := by
  by_cases hne : Int.fdiv t 1000 = st.qrToken
  · simp [qrTick, hne]
  · simp [qrTick, hne]

lemma getTimecode_false (u l : DateFields) :
    getTimecode u l false = getTimecode u u false := rfl

/-! Claim theorems. -/

/-- Claim C1, counterexample: at canvas width 0 the first main-bar rectangle
has width `0/7 + 1 = 1`, not zero, so the layout does not produce a
zero-sized primitive set for degenerate width as the claim states. -/
theorem degenerate_zero_width_counterexample :
    (mainBarRect 0 100 0).w = 1 ∧ (mainBarRect 0 100 0).w ≠ 0 := by
  constructor
  · norm_num [mainBarRect]
  · norm_num [mainBarRect]

/-- Claim C1, amended: for width 0 (resp. height 0) the layout computation is
total — no exception, and over exact rational arithmetic no NaN can arise
since every divisor (7 and the constant unit total 8) is a nonzero
constant — and every bar-row x-position and height scales to zero, but each
bar-row rectangle keeps the constant `+1` overlap width, so its width is
exactly 1, not 0. -/
theorem degenerate_dims_amended (w h : ℚ) (i j : ℕ) :
    ((mainBarRect 0 h i).x = 0 ∧ (mainBarRect 0 h i).w = 1)
    ∧ ((castellationRect 0 h i).x = 0 ∧ (castellationRect 0 h i).w = 1)
    ∧ (getPlugeX 0 j = 0 ∧ (plugeRect 0 h j).x = 0 ∧ (plugeRect 0 h j).w = 1)
    ∧ ((mainBarRect w 0 i).h = 0 ∧ (castellationRect w 0 i).h = 0
       ∧ (castellationRect w 0 i).y = 0 ∧ (plugeRect w 0 j).h = 0
       ∧ (plugeRect w 0 j).y = 0) := by
  refine ⟨⟨?_, ?_⟩, ⟨?_, ?_⟩, ⟨?_, ?_, ?_⟩, ?_, ?_, ?_, ?_, ?_⟩
  · simp [mainBarRect]
  · norm_num [mainBarRect]
  · simp [castellationRect]
  · norm_num [castellationRect]
  · exact getPlugeX_zero_width j
  · simp [plugeRect, getPlugeX_zero_width]
  · simp [plugeRect, unitWidth]
  · simp [mainBarRect]
  · simp [castellationRect]
  · simp [castellationRect]
  · simp [plugeRect]
  · simp [plugeRect]

/-- Claim C2, counterexample: at canvas width `W = 7` each of the 7 main-bar
rectangles has width `7/7 + 1 = 2`, so the widths sum to `14`, which is not
within 1 unit of `W = 7`. -/
theorem mainBars_sum_counterexample :
    (0:ℚ) < 7
    ∧ (∑ i ∈ Finset.range 7, (mainBarRect 7 1 i).w) = 14
    ∧ ¬(|(∑ i ∈ Finset.range 7, (mainBarRect 7 1 i).w) - 7| ≤ 1) := by
  have hsum : (∑ i ∈ Finset.range 7, (mainBarRect 7 1 i).w) = 14 := by
    simp [mainBarRect, Finset.sum_const, Finset.card_range]
    norm_num
  refine ⟨by norm_num, hsum, ?_⟩
  rw [hsum]
  rw [show (14:ℚ) - 7 = 7 by norm_num]
  rw [abs_of_nonneg (by norm_num : (0:ℚ) ≤ 7)]
  norm_num

/-- Claim C2, amended: for every canvas width `W > 0` the 7 main-bar widths
sum to exactly `W + 7` (each of the 7 bars carries the constant `+1`
overlap), and it is the right edge of the last bar, `(W/7)*6 + (W/7 + 1)
= W + 1`, that is within 1 unit of `W`. -/
theorem mainBars_sum_amended (w h : ℚ) (_hw : 0 < w) :
    (∑ i ∈ Finset.range 7, (mainBarRect w h i).w) = w + 7
    ∧ (mainBarRect w h 6).x + (mainBarRect w h 6).w = w + 1
    ∧ |(mainBarRect w h 6).x + (mainBarRect w h 6).w - w| ≤ 1 := by
  have hsum : (∑ i ∈ Finset.range 7, (mainBarRect w h i).w) = w + 7 := by
    rw [show (∑ i ∈ Finset.range 7, (mainBarRect w h i).w) =
        ∑ _i ∈ Finset.range 7, (w / 7 + 1) from rfl]
    rw [Finset.sum_const, Finset.card_range, nsmul_eq_mul]
    ring
  have hedge : (mainBarRect w h 6).x + (mainBarRect w h 6).w = w + 1 := by
    simp [mainBarRect]
    ring
  refine ⟨hsum, hedge, ?_⟩
  rw [hedge]
  rw [show w + 1 - w = (1:ℚ) by ring]
  simp

/-- Witness for `mainBars_sum_amended` at `W = 7`, `H = 1`. -/
theorem mainBars_sum_amended_witness :
    (0:ℚ) < 7
    ∧ ((∑ i ∈ Finset.range 7, (mainBarRect 7 1 i).w) = 7 + 7
       ∧ (mainBarRect 7 1 6).x + (mainBarRect 7 1 6).w = 7 + 1
       ∧ |(mainBarRect 7 1 6).x + (mainBarRect 7 1 6).w - 7| ≤ 1) :=
  ⟨by norm_num, mainBars_sum_amended 7 1 (by norm_num)⟩

/-- Claim C3: for every canvas width `W > 0`, after any finite sequence of
ticks with nonnegative frame deltas starting from `ballX = ballRadius`, the
ball position stays in `[ballRadius, W - ballRadius]` and the direction
stays in `{-1, +1}`; within a single tick the two boundary contacts are
mutually exclusive (so direction is never flipped twice in one tick), and on
contact with a bound the position is clamped exactly to that bound with the
direction set away from it. -/
theorem ball_bounds_invariant (w h : ℚ) (hw : 0 < w) (deltas : List ℚ)
    (_hdeltas : ∀ d ∈ deltas, 0 ≤ d) :
    ((ballRadius w h ≤
        (ballRun w h deltas { ballX := ballRadius w h, ballDirection := 1 }).ballX
      ∧ (ballRun w h deltas { ballX := ballRadius w h, ballDirection := 1 }).ballX ≤
        w - ballRadius w h)
     ∧ ((ballRun w h deltas { ballX := ballRadius w h, ballDirection := 1 }).ballDirection = 1
        ∨ (ballRun w h deltas { ballX := ballRadius w h, ballDirection := 1 }).ballDirection = -1))
    ∧ (∀ (s : BallState) (d : ℚ),
        ¬(s.ballX + ballSpeed w * (s.ballDirection : ℚ) * (d / 1000) ≥ w - ballRadius w h
          ∧ s.ballX + ballSpeed w * (s.ballDirection : ℚ) * (d / 1000) ≤ ballRadius w h))
    ∧ (∀ (s : BallState) (d : ℚ),
        s.ballX + ballSpeed w * (s.ballDirection : ℚ) * (d / 1000) ≥ w - ballRadius w h →
          ballTick w h d s = { ballX := w - ballRadius w h, ballDirection := -1 })
    ∧ (∀ (s : BallState) (d : ℚ),
        s.ballX + ballSpeed w * (s.ballDirection : ℚ) * (d / 1000) ≤ ballRadius w h →
          ballTick w h d s = { ballX := ballRadius w h, ballDirection := 1 }) := by
  have hlt := two_ballRadius_lt w h hw
  refine ⟨ballRun_bounds w h hw deltas _ ⟨le_refl _, by linarith⟩ (Or.inl rfl),
    ?_, ?_, ?_⟩
  · rintro s d ⟨h1, h2⟩
    linarith
  · intro s d h1
    exact ballTick_high w h d s h1
  · intro s d h2
    exact ballTick_low w h d hw s h2

/-- Witness for `ball_bounds_invariant` at `W = 100`, `H = 50`,
deltas `[16]`. -/
theorem ball_bounds_invariant_witness :
    (0:ℚ) < 100
    ∧ (∀ d ∈ ([16] : List ℚ), (0:ℚ) ≤ d)
    ∧ (((ballRadius 100 50 ≤
          (ballRun 100 50 [16] { ballX := ballRadius 100 50, ballDirection := 1 }).ballX
        ∧ (ballRun 100 50 [16] { ballX := ballRadius 100 50, ballDirection := 1 }).ballX ≤
          100 - ballRadius 100 50)
       ∧ ((ballRun 100 50 [16] { ballX := ballRadius 100 50, ballDirection := 1 }).ballDirection = 1
          ∨ (ballRun 100 50 [16] { ballX := ballRadius 100 50, ballDirection := 1 }).ballDirection = -1))
      ∧ (∀ (s : BallState) (d : ℚ),
          ¬(s.ballX + ballSpeed 100 * (s.ballDirection : ℚ) * (d / 1000) ≥ 100 - ballRadius 100 50
            ∧ s.ballX + ballSpeed 100 * (s.ballDirection : ℚ) * (d / 1000) ≤ ballRadius 100 50))
      ∧ (∀ (s : BallState) (d : ℚ),
          s.ballX + ballSpeed 100 * (s.ballDirection : ℚ) * (d / 1000) ≥ 100 - ballRadius 100 50 →
            ballTick 100 50 d s = { ballX := 100 - ballRadius 100 50, ballDirection := -1 })
      ∧ (∀ (s : BallState) (d : ℚ),
          s.ballX + ballSpeed 100 * (s.ballDirection : ℚ) * (d / 1000) ≤ ballRadius 100 50 →
            ballTick 100 50 d s = { ballX := ballRadius 100 50, ballDirection := 1 })) :=
  ⟨by norm_num,
   by intro d hd; rw [List.mem_singleton] at hd; rw [hd]; norm_num,
   ball_bounds_invariant 100 50 (by norm_num) [16]
     (by intro d hd; rw [List.mem_singleton] at hd; rw [hd]; norm_num)⟩

/-- Claim C4: the spinner phase is the pure function
`t mod 5000 ∈ [0, 5000)` of the wall-clock instant `t` (milliseconds),
independent of tick history, and the spinner angle is
`(phase / 5000) * 360` degrees. -/
theorem spinner_phase_wallclock (t : ℤ) :
    spinnerPhaseMsOf t = t % 5000
    ∧ 0 ≤ spinnerPhaseMsOf t ∧ spinnerPhaseMsOf t < 5000
    ∧ spinnerAngleOf t = ((t % 5000 : ℤ) : ℚ) / 5000 * 360 := by
  have hphase : spinnerPhaseMsOf t = t % 5000 := by
    unfold spinnerPhaseMsOf spinnerCycleMs
    exact tmod_shift_emod t
  refine ⟨hphase, ?_, ?_, ?_⟩
  · rw [hphase]
    exact Int.emod_nonneg t (by norm_num)
  · rw [hphase]
    exact Int.emod_lt_of_pos t (by norm_num)
  · unfold spinnerAngleOf spinnerCycleMs
    rw [hphase]
    norm_num

/-- Claim C5: the sync-QR payload is regenerated exactly when the integer
wall-clock second changes: a tick regenerates iff `floor(t/1000)` differs
from the stored token, afterwards the token equals `floor(t/1000)`, and a
second tick within the same integer second never regenerates again. -/
theorem qr_regen_once_per_second (st : QrState) (dims : String) (t1 t2 : ℤ)
    (hsame : Int.fdiv t1 1000 = Int.fdiv t2 1000) :
    (∀ t : ℤ, ((qrTick t dims st).2 = true ↔ Int.fdiv t 1000 ≠ st.qrToken))
    ∧ (∀ t : ℤ, ((qrTick t dims st).1).qrToken = Int.fdiv t 1000)
    ∧ (qrTick t2 dims (qrTick t1 dims st).1).2 = false := by
  refine ⟨fun t => qrTick_flag t dims st, fun t => qrTick_token t dims st, ?_⟩
  have hflag2 := qrTick_flag t2 dims ((qrTick t1 dims st).1)
  rw [qrTick_token t1 dims st, hsame] at hflag2
  have hne : ¬ ((qrTick t2 dims (qrTick t1 dims st).1).2 = true) :=
    fun hcontra => (hflag2.mp hcontra) rfl
  simpa using hne

/-- Witness for `qr_regen_once_per_second` with instants 1500ms and 1999ms,
both in second 1. -/
theorem qr_regen_once_per_second_witness :
    Int.fdiv 1500 1000 = Int.fdiv 1999 1000
    ∧ ((∀ t : ℤ, ((qrTick t "640x360" qr0).2 = true ↔ Int.fdiv t 1000 ≠ qr0.qrToken))
       ∧ (∀ t : ℤ, ((qrTick t "640x360" qr0).1).qrToken = Int.fdiv t 1000)
       ∧ (qrTick 1999 "640x360" (qrTick 1500 "640x360" qr0).1).2 = false) :=
  ⟨by decide, qr_regen_once_per_second qr0 "640x360" 1500 1999 (by decide)⟩

/-- Claim C6: `getTimecode` formats `HH:MM:SS:FF` from the UTC calendar
fields when `useLocal = false` (the local fields are then irrelevant, and
conversely only the local fields matter when `useLocal = true`), with
`FF = floor((ms/1000)*30)`: the instant 2024-01-01T00:00:00.500Z renders as
"00:00:00:15", and any instant with UTC milliseconds 999 has frame field
29. -/
theorem timecode_format (l : DateFields) (t : ℤ)
    (hms : (utcFields t).ms = 999) :
    getTimecode (utcFields 1704067200500) l false = "00:00:00:15"
    ∧ frameIndex (utcFields t).ms = 29
    ∧ (∀ u l2 l3 : DateFields, getTimecode u l2 false = getTimecode u l3 false)
    ∧ (∀ u1 u2 l4 : DateFields, getTimecode u1 l4 true = getTimecode u2 l4 true) := by
  refine ⟨?_, ?_, ?_, ?_⟩
  · rw [getTimecode_false]
    decide
  · rw [hms]
    rfl
  · intro u l2 l3
    rfl
  · intro u1 u2 l4
    rfl

/-- Witness for `timecode_format` at the instant with milliseconds 999. -/
theorem timecode_format_witness :
    (utcFields 999).ms = 999
    ∧ (getTimecode (utcFields 1704067200500) (utcFields 0) false = "00:00:00:15"
       ∧ frameIndex (utcFields 999).ms = 29
       ∧ (∀ u l2 l3 : DateFields, getTimecode u l2 false = getTimecode u l3 false)
       ∧ (∀ u1 u2 l4 : DateFields, getTimecode u1 l4 true = getTimecode u2 l4 true)) :=
  ⟨rfl, timecode_format (utcFields 0) 999 rfl⟩

/-- Claim C7: for the fixed PLUGE configuration (units 1,1,1,1,0.5,1,0.5,2
summing to 8) and every `W > 0`, the segment x-offsets are monotonically
non-decreasing, each segment's pixel width is its unit width times `W/8`
plus the 1-unit overlap, and the last segment's right edge is `W + 1`,
within 1 unit of `W`. -/
theorem pluge_layout (w h : ℚ) (hw : 0 < w) :
    (∀ i j : ℕ, i ≤ j → j ≤ 7 → getPlugeX w i ≤ getPlugeX w j)
    ∧ (∀ i : ℕ, (plugeRect w h i).w = pluGeRowWidths.getD i 0 * (w / 8) + 1)
    ∧ getPlugeX w 7 + (plugeRect w h 7).w = w + 1
    ∧ |getPlugeX w 7 + (plugeRect w h 7).w - w| ≤ 1 := by
  have hwidth : ∀ i : ℕ, (plugeRect w h i).w =
      pluGeRowWidths.getD i 0 * (w / 8) + 1 := by
    intro i
    simp [plugeRect, unitWidth, totalWidthUnits_eq]
  have hedge : getPlugeX w 7 + (plugeRect w h 7).w = w + 1 := by
    rw [hwidth 7, getPlugeX_seven]
    rw [show pluGeRowWidths.getD 7 0 = 2 from rfl]
    ring
  refine ⟨fun i j hij _ => getPlugeX_mono w (le_of_lt hw) i j hij, hwidth,
    hedge, ?_⟩
  rw [hedge]
  rw [show w + 1 - w = (1:ℚ) by ring]
  simp

/-- Witness for `pluge_layout` at `W = 8`, `H = 2`. -/
theorem pluge_layout_witness :
    (0:ℚ) < 8
    ∧ ((∀ i j : ℕ, i ≤ j → j ≤ 7 → getPlugeX 8 i ≤ getPlugeX 8 j)
       ∧ (∀ i : ℕ, (plugeRect 8 2 i).w = pluGeRowWidths.getD i 0 * (8 / 8) + 1)
       ∧ getPlugeX 8 7 + (plugeRect 8 2 7).w = 8 + 1
       ∧ |getPlugeX 8 7 + (plugeRect 8 2 7).w - 8| ≤ 1) :=
  ⟨by norm_num, pluge_layout 8 2 (by norm_num)⟩

/-- Claim C8: the ball update is velocity integration at `width/2` pixels
per second: with no boundary contact the position changes by exactly
`velocity * direction * deltaSeconds`; on reaching a bound at the radius
offset while travelling toward it, the position is clamped to the bound and
the direction is inverted in the same tick. -/
theorem ball_velocity_integration (w h d : ℚ) (hw : 0 < w) (s : BallState) :
    ballSpeed w = w / 2
    ∧ (¬(s.ballX + ballSpeed w * (s.ballDirection : ℚ) * (d / 1000) ≥
          w - ballRadius w h) →
       ¬(s.ballX + ballSpeed w * (s.ballDirection : ℚ) * (d / 1000) ≤
          ballRadius w h) →
       ballTick w h d s =
         { ballX := s.ballX + ballSpeed w * (s.ballDirection : ℚ) * (d / 1000),
           ballDirection := s.ballDirection })
    ∧ (s.ballDirection = 1 →
       s.ballX + ballSpeed w * (s.ballDirection : ℚ) * (d / 1000) ≥
          w - ballRadius w h →
       ballTick w h d s =
         { ballX := w - ballRadius w h, ballDirection := -s.ballDirection })
    ∧ (s.ballDirection = -1 →
       s.ballX + ballSpeed w * (s.ballDirection : ℚ) * (d / 1000) ≤
          ballRadius w h →
       ballTick w h d s =
         { ballX := ballRadius w h, ballDirection := -s.ballDirection }) := by
  refine ⟨rfl, ballTick_mid w h d s, ?_, ?_⟩
  · intro hdir hc
    rw [ballTick_high w h d s hc, hdir]
  · intro hdir hc
    rw [ballTick_low w h d hw s hc, hdir]
    norm_num

/-- Witness for `ball_velocity_integration` at `W = 100`, `H = 50`,
`d = 16`, state `(50, +1)`. -/
theorem ball_velocity_integration_witness :
    (0:ℚ) < 100
    ∧ (ballSpeed 100 = 100 / 2
       ∧ (¬(({ ballX := 50, ballDirection := 1 } : BallState).ballX +
              ballSpeed 100 * (({ ballX := 50, ballDirection := 1 } : BallState).ballDirection : ℚ) * (16 / 1000) ≥
              100 - ballRadius 100 50) →
          ¬(({ ballX := 50, ballDirection := 1 } : BallState).ballX +
              ballSpeed 100 * (({ ballX := 50, ballDirection := 1 } : BallState).ballDirection : ℚ) * (16 / 1000) ≤
              ballRadius 100 50) →
          ballTick 100 50 16 { ballX := 50, ballDirection := 1 } =
            { ballX := ({ ballX := 50, ballDirection := 1 } : BallState).ballX +
                ballSpeed 100 * (({ ballX := 50, ballDirection := 1 } : BallState).ballDirection : ℚ) * (16 / 1000),
              ballDirection := ({ ballX := 50, ballDirection := 1 } : BallState).ballDirection })
       ∧ (({ ballX := 50, ballDirection := 1 } : BallState).ballDirection = 1 →
          ({ ballX := 50, ballDirection := 1 } : BallState).ballX +
              ballSpeed 100 * (({ ballX := 50, ballDirection := 1 } : BallState).ballDirection : ℚ) * (16 / 1000) ≥
              100 - ballRadius 100 50 →
          ballTick 100 50 16 { ballX := 50, ballDirection := 1 } =
            { ballX := 100 - ballRadius 100 50,
              ballDirection := -({ ballX := 50, ballDirection := 1 } : BallState).ballDirection })
       ∧ (({ ballX := 50, ballDirection := 1 } : BallState).ballDirection = -1 →
          ({ ballX := 50, ballDirection := 1 } : BallState).ballX +
              ballSpeed 100 * (({ ballX := 50, ballDirection := 1 } : BallState).ballDirection : ℚ) * (16 / 1000) ≤
              ballRadius 100 50 →
          ballTick 100 50 16 { ballX := 50, ballDirection := 1 } =
            { ballX := ballRadius 100 50,
              ballDirection := -({ ballX := 50, ballDirection := 1 } : BallState).ballDirection })) :=
  ⟨by norm_num,
   ball_velocity_integration 100 50 16 (by norm_num) { ballX := 50, ballDirection := 1 }⟩

/-- Claim C9: within a single animation tick the synchronized clock is read
exactly once (the read counter advances by one), the tick's output depends
on the clock only through that single read, and the time-derived quantities
of the tick — stored instant (hence all displayed timecodes), spinner phase
and angle, and QR state — are functions of that one instant. -/
theorem tick_single_clock_read (cfg : Config) (clock clock2 : ℕ → ℤ)
    (timestamp : ℚ) (st : AnimState)
    (hagree : clock st.reads = clock2 st.reads) :
    (updateAnimation cfg clock timestamp st).reads = st.reads + 1
    ∧ updateAnimation cfg clock timestamp st =
        updateAnimation cfg clock2 timestamp st
    ∧ (updateAnimation cfg clock timestamp st).currentTime = clock st.reads
    ∧ (cfg.showSpinner = true →
        (updateAnimation cfg clock timestamp st).spinnerPhaseMs =
            spinnerPhaseMsOf (clock st.reads)
        ∧ (updateAnimation cfg clock timestamp st).spinnerAngle =
            spinnerAngleOf (clock st.reads))
    ∧ (cfg.showSyncQr = true →
        (updateAnimation cfg clock timestamp st).qr =
          (qrTick (clock st.reads) cfg.dims st.qr).1) := by
  refine ⟨rfl, ?_, rfl, ?_, ?_⟩
  · unfold updateAnimation
    rw [hagree]
  · intro hs
    constructor
    · simp [updateAnimation, hs]
    · simp [updateAnimation, hs]
  · intro hq
    simp [updateAnimation, hq]

/-- Witness for `tick_single_clock_read` with the constant clock `0`. -/
theorem tick_single_clock_read_witness :
    ((fun _ : ℕ => (0:ℤ)) st0.reads = (fun _ : ℕ => (0:ℤ)) st0.reads)
    ∧ ((updateAnimation cfg0 (fun _ => 0) 16 st0).reads = st0.reads + 1
       ∧ updateAnimation cfg0 (fun _ => 0) 16 st0 =
           updateAnimation cfg0 (fun _ => 0) 16 st0
       ∧ (updateAnimation cfg0 (fun _ => 0) 16 st0).currentTime =
           (fun _ : ℕ => (0:ℤ)) st0.reads
       ∧ (cfg0.showSpinner = true →
           (updateAnimation cfg0 (fun _ => 0) 16 st0).spinnerPhaseMs =
               spinnerPhaseMsOf ((fun _ : ℕ => (0:ℤ)) st0.reads)
           ∧ (updateAnimation cfg0 (fun _ => 0) 16 st0).spinnerAngle =
               spinnerAngleOf ((fun _ : ℕ => (0:ℤ)) st0.reads))
       ∧ (cfg0.showSyncQr = true →
           (updateAnimation cfg0 (fun _ => 0) 16 st0).qr =
             (qrTick ((fun _ : ℕ => (0:ℤ)) st0.reads) cfg0.dims st0.qr).1)) :=
  ⟨rfl, tick_single_clock_read cfg0 (fun _ => 0) (fun _ => 0) 16 st0 rfl⟩

/-- Claim C10: when `syncTime` fails, only the `synced` flag is set to
`false`; `offset`, `serverTime` and `lastSync` are unchanged, so for every
fixed local-clock value `getSyncedTime` returns the same instant before and
after the failed sync — the last successful offset keeps being applied. -/
theorem sync_failure_preserves_offset (td : TimeData) :
    (syncTime none td).offset = td.offset
    ∧ (syncTime none td).serverTime = td.serverTime
    ∧ (syncTime none td).lastSync = td.lastSync
    ∧ (syncTime none td).synced = false
    ∧ ∀ nowMs : ℚ, getSyncedTime nowMs (syncTime none td) =
        getSyncedTime nowMs td :=
  ⟨rfl, rfl, rfl, rfl, fun _ => rfl⟩

end ColorBars
